import Mathlib

/-!
Verification of the compatibility scoring and matching engine of the
playright-frontend backend.

The development shallowly embeds the two parallel Python implementations:

* `AIMatchingService` — `BACKEND/api-server/app/services/ai_matching.py`
* `CompatibilityModel` — `BACKEND/ai-engine/models/compatibility_model.py`
* `AIEngine` — the aggregation in `BACKEND/ai-engine/api/matching.py`

Python floats are modelled as exact rationals (`ℚ`); Python `dict` profile
records are modelled as structures whose field defaults are the `dict.get`
defaults used by the code; Python strings are Lean `String`s with the handful
of string operations (`lower`, `in`, `split`, `strip`) re-implemented on the
underlying character lists; a Python exception inside the per-candidate loop
of bulk matching is modelled by an `Option`-valued oracle. `round(x, n)`
is modelled as round-half-up on rationals (it differs from Python's
round-half-even only on exact ties, which play no role in any claim).
-/

/-! ## Python string primitives on character lists -/

/-- Does `sub` occur at the head of `l`? (Helper for Python's `in`.) -/
def headMatch : List Char → List Char → Bool
  | [], _ => true
  | _ :: _, [] => false
  | c :: cs, d :: ds => c == d && headMatch cs ds

/-- Does `sub` occur anywhere in `l`? (Python `sub in l`, list level.) -/
def subHit (sub : List Char) : List Char → Bool
  | [] => headMatch sub []
  | d :: ds => headMatch sub (d :: ds) || subHit sub ds

/-- Python `sub in s` (substring containment). -/
def pyIn (sub s : String) : Bool := subHit sub.data s.data

/-- Python `s.lower()` (ASCII case folding, as in all profile data here). -/
def pyLower (s : String) : String := ⟨s.data.map Char.toLower⟩

/-- Split a character list at every character satisfying `p`, keeping empty
segments, as Python `str.split(sep)` does for a one-character `sep`. -/
def splitOnPred (p : Char → Bool) : List Char → List (List Char)
  | [] => [[]]
  | d :: ds =>
    if p d then [] :: splitOnPred p ds
    else
      match splitOnPred p ds with
      | [] => [[d]]
      | t :: ts => (d :: t) :: ts

/-- Python `s.split(",")`. -/
def pySplitComma (s : String) : List String :=
  (splitOnPred (fun c => c == ',') s.data).map (fun l => (⟨l⟩ : String))

/-- Python `s.split()` — split on whitespace runs, dropping empty segments. -/
def pySplitWs (s : String) : List String :=
  ((splitOnPred Char.isWhitespace s.data).filter (fun w => w ≠ [])).map
    (fun l => (⟨l⟩ : String))

/-- Python `s.strip()`. -/
def pyStrip (s : String) : String :=
  ⟨((s.data.dropWhile Char.isWhitespace).reverse.dropWhile Char.isWhitespace).reverse⟩

/-- `np.mean` of a list (all call sites in the source guard non-emptiness). -/
def npMean (l : List ℚ) : ℚ := l.sum / (l.length : ℚ)

/-- Python `d.get(k, default)` on a string-keyed numeric dict. -/
def lookupD (l : List (String × ℚ)) (k : String) (d : ℚ) : ℚ :=
  ((l.find? (fun p => p.1 == k)).map (fun p => p.2)).getD d

/-! ## Data model

Profile records are Python dicts; the fields below are exactly the keys the
scoring engine reads, with the `dict.get` default of the code as the Lean
field default (an absent string key and the empty string are interchangeable
for every read performed by the engine, which only tests truthiness or
content of these strings). -/

/-- Per-platform audience demographics inside a metric record (the engine
only reads the `age_groups` and `gender` percentage distributions; a missing
or empty dict behaves as two empty distributions everywhere it is used). -/
structure AudienceDemographics where
  age_groups : List (String × ℚ) := []
  gender_dist : List (String × ℚ) := []
deriving DecidableEq

/-- One social-media metrics record of an athlete. -/
structure Metric where
  followers : ℚ := 0
  engagement_rate : ℚ := 0
  audience_demographics : AudienceDemographics := {}
deriving DecidableEq

/-- A brand's `target_demographics` dict. The `gender` key is read as a
plain string by the api-server service and as a percentage distribution by
the ai-engine model; both views are carried (`gender` / `gender_dist`). -/
structure TargetDemographics where
  age_group : Option String := none
  gender : Option String := none
  interests : Option (List String) := none
  income_level : Option String := none
  age_groups : List (String × ℚ) := []
  gender_dist : List (String × ℚ) := []
deriving DecidableEq

/-- An athlete profile record. -/
structure Athlete where
  id : String := ""
  first_name : String := ""
  last_name : String := ""
  sport : String := ""
  school : String := ""
  location : String := ""
  bio : String := ""
  gender : String := ""
  age : Option ℤ := none
  verified : Bool := false
  nil_eligible : Bool := true
deriving DecidableEq

/-- A brand profile record (`target_demographics = none` models an absent or
empty dict, which are indistinguishable to the code's truthiness tests). -/
structure Brand where
  id : String := ""
  company_name : String := ""
  industry : String := ""
  description : String := ""
  location : String := ""
  preferred_sports : List String := []
  target_demographics : Option TargetDemographics := none
  budget_min : ℚ := 0
  budget_max : ℚ := 0
deriving DecidableEq

/-- Python `round(x, d)` modelled on rationals (round half up; Python's
half-even tie-breaking differs only on exact ties). -/
def pyRound (d : ℕ) (x : ℚ) : ℚ := ((round (x * 10 ^ d) : ℤ) : ℚ) / 10 ^ d

namespace AIMatchingService

/-- `settings.MATCHING_THRESHOLD` from `app/core/config.py`. -/
def MATCHING_THRESHOLD : ℚ := 0.7

/-- The factors dict produced by `_calculate_compatibility_factors`. -/
structure AMFactors where
  sport_alignment : ℚ
  location_proximity : ℚ
  audience_demographics : ℚ
  budget_fit : ℚ
  engagement_quality : ℚ
  brand_safety : ℚ
deriving DecidableEq

/-- `_estimate_athlete_rate`. -/
def _estimate_athlete_rate (followers : ℚ) (engagement_score : ℚ) : ℚ :=
  let base_rate := followers * 0.01
  let engagement_multiplier := 1 + engagement_score / 100
  base_rate * engagement_multiplier

/-- The age-group scale used by `_age_group_distance`. -/
def age_groups_scale : List String :=
  [("under_18"), ("18_24"), ("25_34"), ("35_44"), ("45_plus")]

/-- `_age_group_distance` (unknown group names give the default distance 2,
as the `ValueError` handler does). -/
def _age_group_distance (age_group1 age_group2 : String) : ℤ :=
  match age_groups_scale.findIdx? (fun g => g == age_group1),
        age_groups_scale.findIdx? (fun g => g == age_group2) with
  | some idx1, some idx2 => |(idx1 : ℤ) - (idx2 : ℤ)|
  | _, _ => 2

/-- `_calculate_audience_demographics_score`.  Each block contributes a
`(score increment, weight increment)` pair exactly when its brand-targeting
key is present (and, for the age and income blocks, metrics are present). -/
def _calculate_audience_demographics_score (athlete_data : Athlete)
    (brand_data : Brand) (athlete_metrics : List Metric) : ℚ :=
  match brand_data.target_demographics with
  | none => 70
  | some target_demographics =>
    let ageBlock : ℚ × ℚ :=
      match target_demographics.age_group with
      | some target_age_group =>
        if athlete_metrics ≠ [] then
          let athlete_age := athlete_data.age.getD 25
          let athlete_age_group :=
            if athlete_age ≤ 18 then ("under_18")
            else if athlete_age ≤ 24 then ("18_24")
            else if athlete_age ≤ 34 then ("25_34")
            else if athlete_age ≤ 44 then ("35_44")
            else ("45_plus")
          if athlete_age_group = target_age_group then (100 * 0.3, 0.3)
          else if |_age_group_distance athlete_age_group target_age_group| = 1 then
            (70 * 0.3, 0.3)
          else (30 * 0.3, 0.3)
        else (0, 0)
      | none => (0, 0)
    let genderBlock : ℚ × ℚ :=
      match target_demographics.gender with
      | some tg =>
        let target_gender := pyLower tg
        let athlete_gender := pyLower athlete_data.gender
        if target_gender = ("any") ∨ athlete_gender = target_gender then (100 * 0.2, 0.2)
        else (40 * 0.2, 0.2)
      | none => (0, 0)
    let interestBlock : ℚ × ℚ :=
      match target_demographics.interests with
      | some interests =>
        let target_interests := interests.map pyLower
        let athlete_sport := pyLower athlete_data.sport
        let athlete_bio := pyLower athlete_data.bio
        let interest_matches : ℕ :=
          (target_interests.filter
            (fun interest => pyIn interest athlete_sport || pyIn interest athlete_bio)).length
        if target_interests ≠ [] then
          (((interest_matches : ℚ) / (target_interests.length : ℚ)) * 100 * 0.25, 0.25)
        else (70 * 0.25, 0.25)
      | none => (0, 0)
    let incomeBlock : ℚ × ℚ :=
      match target_demographics.income_level with
      | some il =>
        if athlete_metrics ≠ [] then
          let target_income := pyLower il
          let total_followers := (athlete_metrics.map (fun m => m.followers)).sum
          let influence_level :=
            if total_followers ≥ 1000000 then ("high")
            else if total_followers ≥ 100000 then ("medium")
            else if total_followers ≥ 10000 then ("low_medium")
            else ("low")
          let mapped :=
            (target_income = ("low") ∧ (influence_level = ("low") ∨ influence_level = ("low_medium"))) ∨
            (target_income = ("medium") ∧ (influence_level = ("low_medium") ∨ influence_level = ("medium"))) ∨
            (target_income = ("high") ∧ (influence_level = ("medium") ∨ influence_level = ("high")))
          if mapped then (90 * 0.25, 0.25)
          else if influence_level = ("high") then (75 * 0.25, 0.25)
          else (50 * 0.25, 0.25)
        else (0, 0)
      | none => (0, 0)
    let score := ageBlock.1 + genderBlock.1 + interestBlock.1 + incomeBlock.1
    let total_weight := ageBlock.2 + genderBlock.2 + interestBlock.2 + incomeBlock.2
    let final_score := if total_weight > 0 then score / total_weight else 70
    min 100 (max 0 final_score)

/-- The red-flag keyword list of `_calculate_brand_safety_score`. -/
def red_flag_keywords : List String :=
  [("controversial"), ("scandal"), ("arrest"), ("lawsuit"), ("drugs"), ("alcohol"),
   ("violence"), ("inappropriate"), ("suspended"), ("banned"), ("violation")]

/-- The moderate-risk keyword list of `_calculate_brand_safety_score`. -/
def moderate_risk_keywords : List String :=
  [("party"), ("wild"), ("crazy"), ("rebel"), ("outspoken"), ("political")]

/-- Number of red-flag keywords found in a (lowercased) bio. -/
def red_flags_found (bio : String) : ℕ :=
  (red_flag_keywords.filter (fun keyword => pyIn keyword bio)).length

/-- Number of moderate-risk keywords found in a (lowercased) bio. -/
def moderate_risks_found (bio : String) : ℕ :=
  (moderate_risk_keywords.filter (fun keyword => pyIn keyword bio)).length

/-- The running `score` of `_calculate_brand_safety_score` just before the
final clamp (`score` starts at 100 and is adjusted in source order). -/
def brand_safety_running_score (athlete_data : Athlete)
    (athlete_metrics : List Metric) : ℚ :=
  let bio := pyLower athlete_data.bio
  let score1 : ℚ := 100 - (red_flags_found bio : ℚ) * 25 - (moderate_risks_found bio : ℚ) * 10
  let score2 :=
    if athlete_metrics ≠ [] then
      let avg_engagement := npMean (athlete_metrics.map (fun m => m.engagement_rate))
      let total_followers := (athlete_metrics.map (fun m => m.followers)).sum
      let fake_penalty : ℚ := if avg_engagement > 15 ∧ total_followers < 10000 then 15 else 0
      let inactive_penalty : ℚ := if avg_engagement < 1 ∧ total_followers > 50000 then 10 else 0
      score1 - fake_penalty - inactive_penalty
    else score1
  let score3 := if athlete_data.verified then score2 + 5 else score2
  let completed_fields : ℕ :=
    ([athlete_data.first_name, athlete_data.last_name, athlete_data.sport,
      athlete_data.school, athlete_data.bio].filter (fun f => f ≠ "")).length
  let profile_completeness : ℚ := ((completed_fields : ℚ) / 5) * 100
  if profile_completeness ≥ 80 then score3 + 5
  else if profile_completeness < 50 then score3 - 10
  else score3

/-- `_calculate_brand_safety_score`: the running score clamped to `[20, 100]`
("Minimum 20 to allow for rehabilitation"). -/
def _calculate_brand_safety_score (athlete_data : Athlete)
    (athlete_metrics : List Metric) : ℚ :=
  min 100 (max 20 (brand_safety_running_score athlete_data athlete_metrics))

/-- `_calculate_compatibility_factors`. -/
def _calculate_compatibility_factors (athlete_data : Athlete) (brand_data : Brand)
    (athlete_metrics : List Metric) : AMFactors :=
  let athlete_sport := athlete_data.sport
  let brand_sports := brand_data.preferred_sports
  let sport_alignment : ℚ :=
    if athlete_sport ∈ brand_sports ∨ brand_sports = [] then 100
    else if brand_sports.any (fun sport => pyIn sport (pyLower athlete_sport)) then 70
    else 20
  let athlete_location := pyLower athlete_data.location
  let brand_location := pyLower brand_data.location
  let location_proximity : ℚ :=
    if athlete_location = brand_location then 100
    else if (pySplitWs athlete_location).any (fun word => pyIn word brand_location) then 60
    else 30
  let engagement_quality : ℚ :=
    if athlete_metrics ≠ [] then
      let avg_engagement := npMean (athlete_metrics.map (fun m => m.engagement_rate))
      if avg_engagement ≥ 8 then 100
      else if avg_engagement ≥ 5 then 80
      else if avg_engagement ≥ 2 then 60
      else 30
    else 0
  let total_followers := (athlete_metrics.map (fun m => m.followers)).sum
  let estimated_rate := _estimate_athlete_rate total_followers engagement_quality
  let brand_budget_max := brand_data.budget_max
  let budget_fit : ℚ :=
    if brand_budget_max > 0 then
      if estimated_rate ≤ brand_budget_max * 0.8 then 100
      else if estimated_rate ≤ brand_budget_max then 80
      else if estimated_rate ≤ brand_budget_max * 1.2 then 50
      else 20
    else 70
  { sport_alignment := sport_alignment
    location_proximity := location_proximity
    audience_demographics :=
      _calculate_audience_demographics_score athlete_data brand_data athlete_metrics
    budget_fit := budget_fit
    engagement_quality := engagement_quality
    brand_safety := _calculate_brand_safety_score athlete_data athlete_metrics }

/-- The weight table of `find_athlete_matches` / `find_brand_matches` /
`calculate_detailed_compatibility` (identical at all three call sites). -/
def weights : List (String × ℚ) :=
  [(("semantic_similarity"), 0.3), (("sport_alignment"), 0.25),
   (("engagement_quality"), 0.2), (("budget_fit"), 0.15),
   (("location_proximity"), 0.05), (("audience_demographics"), 0.03),
   (("brand_safety"), 0.02)]

/-- `weights[k]` (the key is always present at the call sites; 0 otherwise). -/
def wget (w : List (String × ℚ)) (k : String) : ℚ := lookupD w k 0

/-- The `overall_score` expression of `find_athlete_matches` (repeated
verbatim in `find_brand_matches`). -/
def overall_score (similarity : ℚ) (factors : AMFactors) : ℚ :=
  similarity * 100 * wget weights ("semantic_similarity") +
  factors.sport_alignment * wget weights ("sport_alignment") +
  factors.engagement_quality * wget weights ("engagement_quality") +
  factors.budget_fit * wget weights ("budget_fit") +
  factors.location_proximity * wget weights ("location_proximity") +
  factors.audience_demographics * wget weights ("audience_demographics") +
  factors.brand_safety * wget weights ("brand_safety")

/-- One element of the `matches` list built by `find_athlete_matches`
(presentation-only fields such as the display name are omitted). -/
structure MatchEntry where
  athlete_id : String
  overall_score : ℚ
  estimated_rate : ℚ
  total_followers : ℚ
deriving DecidableEq

/-- The body of the per-athlete `try` block of `find_athlete_matches`.
`metricsOf` is the metrics-store oracle: `none` models a per-candidate
exception (the `except` branch logs and continues); `sim` is the embedding
cosine-similarity oracle.  The result is `some entry` exactly when the
candidate is processed without error and clears the score threshold. -/
def tryProcessAthlete (sim : Athlete → ℚ) (metricsOf : Athlete → Option (List Metric))
    (brand_data : Brand) (athlete : Athlete) : Option MatchEntry :=
  match metricsOf athlete with
  | none => none
  | some athlete_metrics =>
    let similarity := sim athlete
    let factors := _calculate_compatibility_factors athlete brand_data athlete_metrics
    let score := overall_score similarity factors
    if score ≥ MATCHING_THRESHOLD * 100 then
      let total_followers := (athlete_metrics.map (fun m => m.followers)).sum
      let estimated_rate := _estimate_athlete_rate total_followers factors.engagement_quality
      some { athlete_id := athlete.id
             overall_score := pyRound 1 score
             estimated_rate := pyRound 2 estimated_rate
             total_followers := total_followers }
    else none

/-- `find_athlete_matches`: per-candidate processing with skip-on-exception,
then the final `matches.sort(key=overall_score, reverse=True)` (a stable
descending sort, modelled by `mergeSort`). -/
def find_athlete_matches (sim : Athlete → ℚ) (metricsOf : Athlete → Option (List Metric))
    (brand_data : Brand) (athletes_data : List Athlete) : List MatchEntry :=
  (athletes_data.filterMap (tryProcessAthlete sim metricsOf brand_data)).mergeSort
    (fun x y => decide (y.overall_score ≤ x.overall_score))

/-- One element of the `matches` list built by `find_brand_matches`
(the formatted `budget_range` display string is omitted). -/
structure BrandMatchEntry where
  brand_id : String
  company_name : String
  overall_score : ℚ
deriving DecidableEq

/-- The body of the per-brand `try` block of `find_brand_matches`.  `simB`
is the embedding similarity oracle for the candidate brand; `none` models a
per-candidate exception. -/
def tryProcessBrand (simB : Brand → Option ℚ) (athlete_data : Athlete)
    (athlete_metrics : List Metric) (brand : Brand) : Option BrandMatchEntry :=
  match simB brand with
  | none => none
  | some similarity =>
    let factors := _calculate_compatibility_factors athlete_data brand athlete_metrics
    let score := overall_score similarity factors
    if score ≥ MATCHING_THRESHOLD * 100 then
      some { brand_id := brand.id
             company_name := brand.company_name
             overall_score := pyRound 1 score }
    else none

/-- `find_brand_matches`. -/
def find_brand_matches (simB : Brand → Option ℚ) (athlete_data : Athlete)
    (athlete_metrics : List Metric) (brands_data : List Brand) : List BrandMatchEntry :=
  (brands_data.filterMap (tryProcessBrand simB athlete_data athlete_metrics)).mergeSort
    (fun x y => decide (y.overall_score ≤ x.overall_score))

end AIMatchingService

namespace CompatibilityModel

/-- The factors dict produced by `calculate_compatibility_factors`. -/
structure CMFactors where
  sport_alignment : ℚ
  audience_match : ℚ
  engagement_quality : ℚ
  budget_compatibility : ℚ
  location_proximity : ℚ
  brand_safety : ℚ
deriving DecidableEq

/-- `self.sport_compatibility` (sport → compatible industries). -/
def sport_compatibility : List (String × List String) :=
  [(("basketball"), [("basketball"), ("sports_apparel"), ("fitness"), ("nutrition")]),
   (("soccer"), [("soccer"), ("football"), ("sports_apparel"), ("fitness")]),
   (("tennis"), [("tennis"), ("sports_apparel"), ("fitness"), ("luxury")]),
   (("swimming"), [("swimming"), ("fitness"), ("nutrition"), ("sports_apparel")]),
   (("football"), [("football"), ("sports_apparel"), ("fitness"), ("automotive")]),
   (("baseball"), [("baseball"), ("sports_apparel"), ("food_beverage")]),
   (("golf"), [("golf"), ("luxury"), ("financial"), ("automotive")]),
   (("track"), [("track"), ("sports_apparel"), ("fitness"), ("nutrition")])]

/-- `self.industry_sport_affinity` (industry → sport → affinity score). -/
def industry_sport_affinity : List (String × List (String × ℚ)) :=
  [(("sports_apparel"),
    [(("basketball"), 100), (("soccer"), 95), (("tennis"), 90), (("swimming"), 85), (("football"), 100)]),
   (("fitness"),
    [(("basketball"), 85), (("soccer"), 80), (("tennis"), 90), (("swimming"), 100), (("track"), 95)]),
   (("nutrition"),
    [(("basketball"), 70), (("soccer"), 75), (("swimming"), 90), (("track"), 85), (("football"), 80)]),
   (("automotive"),
    [(("football"), 85), (("basketball"), 70), (("golf"), 80), (("baseball"), 60)]),
   (("technology"),
    [(("basketball"), 75), (("soccer"), 70), (("tennis"), 65), (("swimming"), 60)])]

/-- `_calculate_sport_alignment`. -/
def _calculate_sport_alignment (athlete_data : Athlete) (brand_data : Brand) : ℚ :=
  let athlete_sport := pyLower athlete_data.sport
  let brand_industry := pyLower brand_data.industry
  let preferred_sports := brand_data.preferred_sports
  if athlete_sport ∈ preferred_sports.map pyLower then 100
  else
    match industry_sport_affinity.find? (fun p => p.1 == brand_industry) with
    | some entry => lookupD entry.2 athlete_sport 40
    | none =>
      match sport_compatibility.find? (fun p => p.1 == athlete_sport) with
      | some entry => if brand_industry ∈ entry.2 then 75 else 30
      | none => 30

/-- The overlap score one truthy distribution pair contributes inside
`_calculate_audience_match`: `Σ min(athlete_pct, brand_pct)` over the
athlete-side entries, with 0 for keys the brand side lacks. -/
def demoOverlap (athlete_groups brand_groups : List (String × ℚ)) : ℚ :=
  (athlete_groups.map (fun p => min p.2 (lookupD brand_groups p.1 0))).sum

/-- `_calculate_audience_match`. -/
def _calculate_audience_match (athlete_metrics : List Metric) (brand_data : Brand) : ℚ :=
  if athlete_metrics = [] then 50
  else
    match brand_data.target_demographics with
    | none => 70
    | some brand_target =>
      let match_scores : List ℚ :=
        (athlete_metrics.map (fun metric =>
          let audience_demo := metric.audience_demographics
          let age_scores :=
            if audience_demo.age_groups ≠ [] ∧ brand_target.age_groups ≠ [] then
              [demoOverlap audience_demo.age_groups brand_target.age_groups]
            else []
          let gender_scores :=
            if audience_demo.gender_dist ≠ [] ∧ brand_target.gender_dist ≠ [] then
              [demoOverlap audience_demo.gender_dist brand_target.gender_dist]
            else []
          age_scores ++ gender_scores)).flatten
      if match_scores ≠ [] then npMean match_scores else 60

/-- `_calculate_engagement_quality`. -/
def _calculate_engagement_quality (athlete_metrics : List Metric) : ℚ :=
  if athlete_metrics = [] then 30
  else
    let engagement_rates := athlete_metrics.map (fun m => m.engagement_rate)
    let avg_engagement := if engagement_rates ≠ [] then npMean engagement_rates else 0
    if avg_engagement ≥ 10 then 100
    else if avg_engagement ≥ 7 then 90
    else if avg_engagement ≥ 5 then 75
    else if avg_engagement ≥ 3 then 60
    else if avg_engagement ≥ 1 then 40
    else 20

/-- `_calculate_budget_compatibility`. -/
def _calculate_budget_compatibility (athlete_metrics : List Metric) (brand_data : Brand) : ℚ :=
  if athlete_metrics = [] then 50
  else
    let total_followers := (athlete_metrics.map (fun m => m.followers)).sum
    let avg_engagement := npMean (athlete_metrics.map (fun m => m.engagement_rate))
    let base_rate := total_followers * 0.005
    let engagement_multiplier := 1 + avg_engagement / 100
    let estimated_rate := base_rate * engagement_multiplier
    let brand_budget_min := brand_data.budget_min
    let brand_budget_max := brand_data.budget_max
    if brand_budget_max = 0 then 60
    else if estimated_rate ≤ brand_budget_min then 95
    else if estimated_rate ≤ brand_budget_max then 100
    else if estimated_rate ≤ brand_budget_max * 1.2 then 70
    else if estimated_rate ≤ brand_budget_max * 1.5 then 40
    else 15

/-- `_calculate_location_proximity`. -/
def _calculate_location_proximity (athlete_data : Athlete) (brand_data : Brand) : ℚ :=
  let athlete_location := pyLower athlete_data.location
  let brand_location := pyLower brand_data.location
  if athlete_location = "" ∨ brand_location = "" then 50
  else if athlete_location = brand_location then 100
  else
    let athlete_parts := pySplitComma athlete_location
    let brand_parts := pySplitComma brand_location
    if 2 ≤ athlete_parts.length ∧ 2 ≤ brand_parts.length ∧
        pyStrip (athlete_parts.getLastD "") = pyStrip (brand_parts.getLastD "") then 80
    else if athlete_parts.any (fun part => pyIn (pyStrip part) brand_location) then 60
    else 30

/-- The running `safety_score` of `_calculate_brand_safety` before the final
clamp (starts at the 85 baseline and is adjusted in source order). -/
def brand_safety_running_score (athlete_data : Athlete)
    (athlete_metrics : List Metric) : ℚ :=
  let completed_fields : ℕ :=
    ([athlete_data.first_name, athlete_data.last_name, athlete_data.sport,
      athlete_data.school, athlete_data.bio].filter (fun f => f ≠ "")).length
  let completeness_score : ℚ := ((completed_fields : ℚ) / 5) * 100
  let s1 : ℚ := if completeness_score < 60 then 85 - 15 else 85
  let s2 :=
    if athlete_metrics ≠ [] then
      let platform_count := athlete_metrics.length
      if 3 ≤ platform_count then s1 + 10
      else if platform_count = 1 then s1 - 5
      else s1
    else s1
  if ¬ athlete_data.nil_eligible then s2 - 30 else s2

/-- `_calculate_brand_safety`: the running score clamped to `[20, 100]`. -/
def _calculate_brand_safety (athlete_data : Athlete) (athlete_metrics : List Metric) : ℚ :=
  max 20 (min 100 (brand_safety_running_score athlete_data athlete_metrics))

/-- `calculate_compatibility_factors`. -/
def calculate_compatibility_factors (athlete_data : Athlete) (brand_data : Brand)
    (athlete_metrics : List Metric) : CMFactors :=
  { sport_alignment := _calculate_sport_alignment athlete_data brand_data
    audience_match := _calculate_audience_match athlete_metrics brand_data
    engagement_quality := _calculate_engagement_quality athlete_metrics
    budget_compatibility := _calculate_budget_compatibility athlete_metrics brand_data
    location_proximity := _calculate_location_proximity athlete_data brand_data
    brand_safety := _calculate_brand_safety athlete_data athlete_metrics }

end CompatibilityModel

namespace AIEngine

open CompatibilityModel

/-- `factors.get(name, 0)` on the dict returned by
`CompatibilityModel.calculate_compatibility_factors`. -/
def CMFactors.get (factors : CMFactors) (k : String) : ℚ :=
  if k = ("sport_alignment") then factors.sport_alignment
  else if k = ("audience_match") then factors.audience_match
  else if k = ("engagement_quality") then factors.engagement_quality
  else if k = ("budget_compatibility") then factors.budget_compatibility
  else if k = ("location_proximity") then factors.location_proximity
  else if k = ("brand_safety") then factors.brand_safety
  else 0

/-- The weight table of `calculate_compatibility` and
`bulk_matching_analysis` in `ai-engine/api/matching.py`. -/
def weights : List (String × ℚ) :=
  [(("semantic_similarity"), 0.25), (("sport_alignment"), 0.20),
   (("audience_match"), 0.20), (("engagement_quality"), 0.15),
   (("budget_compatibility"), 0.10), (("location_proximity"), 0.05),
   (("brand_safety"), 0.05)]

/-- The `overall_score` expression of `calculate_compatibility` (repeated
verbatim in `bulk_matching_analysis`): a sum of `factors.get(name, 0) *
weight` over the weight table — whose `semantic_similarity` entry reads 0
out of the factors dict — plus the separate semantic-similarity term. -/
def overall_score (factors : CMFactors) (semantic_similarity : ℚ) : ℚ :=
  (weights.map (fun fw => CMFactors.get factors fw.1 * fw.2)).sum +
    semantic_similarity * 100 * lookupD weights ("semantic_similarity") 0

end AIEngine

/-- The factor range `[0, 100]`. -/
def inRange (x : ℚ) : Prop := 0 ≤ x ∧ x ≤ 100

/-- A valid percentage distribution: non-negative values summing to ≤ 100
(what audience-demographics percentage dicts hold in well-formed records). -/
def validDist (l : List (String × ℚ)) : Prop :=
  (∀ p ∈ l, 0 ≤ p.2) ∧ (l.map Prod.snd).sum ≤ 100

/-- A complete, verified athlete profile with a clean bio (brand-safety
boundary analysis). -/
def cleanAthlete : Athlete :=
  { first_name := ("a")
    last_name := ("b")
    sport := ("c")
    school := ("d")
    bio := ("nice")
    verified := true }

/-- The same profile whose bio additionally contains the red-flag keyword
"arrest". -/
def arrestAthlete : Athlete := { cleanAthlete with bio := ("nice arrest") }

/-- A metric whose audience age-group "percentages" exceed 100 (type-correct
input a caller can send; nothing in the code validates it). -/
def overflowMetric : Metric :=
  { audience_demographics := { age_groups := [(("x"), 150)] } }

/-- A brand targeting the same out-of-range age-group distribution. -/
def overflowBrand : Brand :=
  { target_demographics := some { age_groups := [(("x"), 150)] } }

/-! ## Helper lemmas -/

theorem round_le_round_q {x y : ℚ} (h : x ≤ y) : round x ≤ round y := by
  rw [round_eq, round_eq]
  exact Int.floor_le_floor (by linarith)

theorem le_pyRound_one {x : ℚ} (h : 70 ≤ x) : 70 ≤ pyRound 1 x := by
  unfold pyRound
  have h1 : ((700 : ℤ) : ℚ) ≤ x * 10 ^ 1 := by push_cast; linarith
  have h2 : (700 : ℤ) ≤ round (x * 10 ^ 1) := by
    calc (700 : ℤ) = round (((700 : ℤ) : ℚ)) := (round_intCast 700).symm
      _ ≤ round (x * 10 ^ 1) := round_le_round_q h1
  have h3 : ((700 : ℚ)) ≤ ((round (x * 10 ^ 1) : ℤ) : ℚ) := by exact_mod_cast h2
  rw [le_div_iff (by norm_num : (0:ℚ) < 10 ^ 1)]
  linarith

theorem pairwise_sort_desc {α : Type} (key : α → ℚ) (l : List α) :
    (l.mergeSort (fun x y => decide (key y ≤ key x))).Pairwise
      (fun x y => key y ≤ key x) := by
  have h := @List.sorted_mergeSort _ (fun x y => decide (key y ≤ key x))
    (fun a b c hab hbc => by
      simp only [decide_eq_true_eq] at *
      exact le_trans hbc hab)
    (fun a b => by
      simp only [Bool.or_eq_true, decide_eq_true_eq]
      exact le_total (key b) (key a)) l
  exact h.imp (fun h' => by simpa using h')

theorem le_npMean {l : List ℚ} {b : ℚ} (hne : l ≠ []) (h : ∀ x ∈ l, b ≤ x) :
    b ≤ npMean l := by
  unfold npMean
  have hlen : 0 < (l.length : ℚ) := by
    have := List.length_pos.mpr hne
    exact_mod_cast this
  rw [le_div_iff hlen]
  have := List.card_nsmul_le_sum l b h
  simpa [nsmul_eq_mul, mul_comm] using this

theorem npMean_le {l : List ℚ} {b : ℚ} (hne : l ≠ []) (h : ∀ x ∈ l, x ≤ b) :
    npMean l ≤ b := by
  unfold npMean
  have hlen : 0 < (l.length : ℚ) := by
    have := List.length_pos.mpr hne
    exact_mod_cast this
  rw [div_le_iff hlen]
  have := List.sum_le_card_nsmul l b h
  simpa [nsmul_eq_mul, mul_comm] using this

theorem lookupD_nonneg {B : List (String × ℚ)} (hB : ∀ p ∈ B, 0 ≤ p.2)
    (k : String) : 0 ≤ lookupD B k 0 := by
  unfold lookupD
  cases hf : B.find? (fun p => p.1 == k) with
  | none => simp
  | some q =>
    have hq : q ∈ B := List.mem_of_find?_eq_some hf
    simpa using hB q hq

theorem demoOverlap_nonneg {A B : List (String × ℚ)} (hA : ∀ p ∈ A, 0 ≤ p.2)
    (hB : ∀ p ∈ B, 0 ≤ p.2) : 0 ≤ CompatibilityModel.demoOverlap A B := by
  unfold CompatibilityModel.demoOverlap
  refine List.sum_nonneg ?_
  intro x hx
  obtain ⟨p, hp, rfl⟩ := List.mem_map.mp hx
  exact le_min (hA p hp) (lookupD_nonneg hB p.1)

theorem demoOverlap_le {A B : List (String × ℚ)}
    (hA : (A.map Prod.snd).sum ≤ 100) : CompatibilityModel.demoOverlap A B ≤ 100 := by
  unfold CompatibilityModel.demoOverlap
  calc (A.map (fun p => min p.2 (lookupD B p.1 0))).sum
      ≤ (A.map (fun p => p.2)).sum := List.sum_le_sum (fun p _ => min_le_left _ _)
    _ ≤ 100 := by simpa using hA

theorem amOverall_unfold (similarity : ℚ) (factors : AIMatchingService.AMFactors) :
    AIMatchingService.overall_score similarity factors =
      similarity * 100 * 0.3 + factors.sport_alignment * 0.25 +
      factors.engagement_quality * 0.2 + factors.budget_fit * 0.15 +
      factors.location_proximity * 0.05 + factors.audience_demographics * 0.03 +
      factors.brand_safety * 0.02 := rfl

theorem engineOverall_unfold (factors : CompatibilityModel.CMFactors)
    (semantic_similarity : ℚ) :
    AIEngine.overall_score factors semantic_similarity =
      factors.sport_alignment * 0.20 + factors.audience_match * 0.20 +
      factors.engagement_quality * 0.15 + factors.budget_compatibility * 0.10 +
      factors.location_proximity * 0.05 + factors.brand_safety * 0.05 +
      semantic_similarity * 100 * 0.25 := by
  have h0 : AIEngine.CMFactors.get factors ("semantic_similarity") = 0 := rfl
  have h1 : AIEngine.CMFactors.get factors ("sport_alignment") = factors.sport_alignment := rfl
  have h2 : AIEngine.CMFactors.get factors ("audience_match") = factors.audience_match := rfl
  have h3 : AIEngine.CMFactors.get factors ("engagement_quality") = factors.engagement_quality := rfl
  have h4 : AIEngine.CMFactors.get factors ("budget_compatibility") = factors.budget_compatibility := rfl
  have h5 : AIEngine.CMFactors.get factors ("location_proximity") = factors.location_proximity := rfl
  have h6 : AIEngine.CMFactors.get factors ("brand_safety") = factors.brand_safety := rfl
  have h7 : lookupD AIEngine.weights ("semantic_similarity") 0 = 0.25 := rfl
  simp only [AIEngine.overall_score]
  rw [h7]
  simp only [AIEngine.weights, List.map_cons, List.map_nil, List.sum_cons,
    List.sum_nil, h0, h1, h2, h3, h4, h5, h6]
  ring

/-! ## Claims -/

/-- C10: compatibility factor calculation is deterministic — both
implementations are pure functions of `(athlete_data, brand_data,
athlete_metrics)`: equal inputs give equal factor mappings. -/
theorem C10_factor_calculation_deterministic :
    ∀ (a1 a2 : Athlete) (b1 b2 : Brand) (m1 m2 : List Metric),
      a1 = a2 → b1 = b2 → m1 = m2 →
      AIMatchingService._calculate_compatibility_factors a1 b1 m1 =
        AIMatchingService._calculate_compatibility_factors a2 b2 m2 ∧
      CompatibilityModel.calculate_compatibility_factors a1 b1 m1 =
        CompatibilityModel.calculate_compatibility_factors a2 b2 m2 := by
  intro a1 a2 b1 b2 m1 m2 ha hb hm
  subst ha; subst hb; subst hm
  exact ⟨rfl, rfl⟩

theorem C10_factor_calculation_deterministic_witness :
    (({} : Athlete) = {} ∧ ({} : Brand) = {} ∧ ([] : List Metric) = []) ∧
    (AIMatchingService._calculate_compatibility_factors {} {} [] =
        AIMatchingService._calculate_compatibility_factors {} {} [] ∧
      CompatibilityModel.calculate_compatibility_factors {} {} [] =
        CompatibilityModel.calculate_compatibility_factors {} {} []) :=
  ⟨⟨rfl, rfl, rfl⟩,
    C10_factor_calculation_deterministic {} {} {} {} [] [] rfl rfl rfl⟩

/-- C5: at every aggregation call site the overall score equals
`Σ factor × weight + semantic_similarity × 100 × semantic_weight`, and each
weight table (semantic similarity plus the six factor weights) sums to
exactly 1. -/
theorem C5_weighted_sum_and_weights_total_one :
    ((AIMatchingService.weights.map Prod.snd).sum = 1 ∧
      (AIEngine.weights.map Prod.snd).sum = 1) ∧
    (∀ (similarity : ℚ) (factors : AIMatchingService.AMFactors),
      AIMatchingService.overall_score similarity factors =
        similarity * 100 * 0.3 + factors.sport_alignment * 0.25 +
        factors.engagement_quality * 0.2 + factors.budget_fit * 0.15 +
        factors.location_proximity * 0.05 + factors.audience_demographics * 0.03 +
        factors.brand_safety * 0.02) ∧
    (∀ (factors : CompatibilityModel.CMFactors) (semantic_similarity : ℚ),
      AIEngine.overall_score factors semantic_similarity =
        factors.sport_alignment * 0.20 + factors.audience_match * 0.20 +
        factors.engagement_quality * 0.15 + factors.budget_compatibility * 0.10 +
        factors.location_proximity * 0.05 + factors.brand_safety * 0.05 +
        semantic_similarity * 100 * 0.25) := by
  refine ⟨⟨?_, ?_⟩, fun s f => amOverall_unfold s f, fun f s => engineOverall_unfold f s⟩
  · norm_num [AIMatchingService.weights]
  · norm_num [AIEngine.weights]

/-- C4: the overall-score aggregation is monotone in each of the six factors
(for both weight tables), holding semantic similarity and the remaining
factors fixed. -/
theorem C4_aggregate_monotone_in_each_factor :
    ∀ (s x y : ℚ) (f : AIMatchingService.AMFactors) (g : CompatibilityModel.CMFactors),
      x ≤ y →
      (AIMatchingService.overall_score s { f with sport_alignment := x } ≤
        AIMatchingService.overall_score s { f with sport_alignment := y }) ∧
      (AIMatchingService.overall_score s { f with engagement_quality := x } ≤
        AIMatchingService.overall_score s { f with engagement_quality := y }) ∧
      (AIMatchingService.overall_score s { f with budget_fit := x } ≤
        AIMatchingService.overall_score s { f with budget_fit := y }) ∧
      (AIMatchingService.overall_score s { f with location_proximity := x } ≤
        AIMatchingService.overall_score s { f with location_proximity := y }) ∧
      (AIMatchingService.overall_score s { f with audience_demographics := x } ≤
        AIMatchingService.overall_score s { f with audience_demographics := y }) ∧
      (AIMatchingService.overall_score s { f with brand_safety := x } ≤
        AIMatchingService.overall_score s { f with brand_safety := y }) ∧
      (AIEngine.overall_score { g with sport_alignment := x } s ≤
        AIEngine.overall_score { g with sport_alignment := y } s) ∧
      (AIEngine.overall_score { g with audience_match := x } s ≤
        AIEngine.overall_score { g with audience_match := y } s) ∧
      (AIEngine.overall_score { g with engagement_quality := x } s ≤
        AIEngine.overall_score { g with engagement_quality := y } s) ∧
      (AIEngine.overall_score { g with budget_compatibility := x } s ≤
        AIEngine.overall_score { g with budget_compatibility := y } s) ∧
      (AIEngine.overall_score { g with location_proximity := x } s ≤
        AIEngine.overall_score { g with location_proximity := y } s) ∧
      (AIEngine.overall_score { g with brand_safety := x } s ≤
        AIEngine.overall_score { g with brand_safety := y } s) := by
  intro s x y f g h
  refine ⟨?_, ?_, ?_, ?_, ?_, ?_, ?_, ?_, ?_, ?_, ?_, ?_⟩ <;>
    simp only [amOverall_unfold, engineOverall_unfold] <;> simp <;> linarith

theorem C4_aggregate_monotone_in_each_factor_witness :
    ((0 : ℚ) ≤ 50) ∧
    (AIMatchingService.overall_score 1
        { sport_alignment := 0, location_proximity := 0, audience_demographics := 0,
          budget_fit := 0, engagement_quality := 0, brand_safety := 0 } ≤
      AIMatchingService.overall_score 1
        { sport_alignment := 50, location_proximity := 0, audience_demographics := 0,
          budget_fit := 0, engagement_quality := 0, brand_safety := 0 }) :=
  ⟨by norm_num,
    (C4_aggregate_monotone_in_each_factor 1 0 50
      { sport_alignment := 0, location_proximity := 0, audience_demographics := 0,
        budget_fit := 0, engagement_quality := 0, brand_safety := 0 }
      { sport_alignment := 0, audience_match := 0, engagement_quality := 0,
        budget_compatibility := 0, location_proximity := 0, brand_safety := 0 }
      (by norm_num)).1⟩

/-- C8 (amended): with an empty metrics list, `CompatibilityModel`'s
engagement quality is the documented low default 30 (inside the 20–30 band),
but `AIMatchingService._calculate_compatibility_factors` leaves
`engagement_quality` at its 0 initialisation — not in the 20–30 band. -/
theorem C8_engagement_default_amended :
    ∀ (athlete_data : Athlete) (brand_data : Brand),
      CompatibilityModel._calculate_engagement_quality [] = 30 ∧
      (20 ≤ (30 : ℚ) ∧ (30 : ℚ) ≤ 30) ∧
      (AIMatchingService._calculate_compatibility_factors athlete_data brand_data
          []).engagement_quality = 0 := by
  intro a b
  refine ⟨by norm_num [CompatibilityModel._calculate_engagement_quality], by norm_num, ?_⟩
  simp [AIMatchingService._calculate_compatibility_factors]

/-- C8 counterexample: on an empty metrics list the api-server variant
returns engagement quality 0, which is not a value between 20 and 30. -/
theorem C8_counterexample :
    (AIMatchingService._calculate_compatibility_factors {} {} []).engagement_quality = 0 ∧
    ¬ (20 ≤ (AIMatchingService._calculate_compatibility_factors {} {} []).engagement_quality) := by
  have h : (AIMatchingService._calculate_compatibility_factors {} {} []).engagement_quality = 0 := by
    simp [AIMatchingService._calculate_compatibility_factors]
  exact ⟨h, by rw [h]; norm_num⟩

/-- C6 (amended): in `AIMatchingService`, sport alignment is 100 when the
brand's preferred-sports list contains the athlete's sport or is empty; in
`CompatibilityModel`, a (case-insensitive) preferred-sports hit gives 100,
but an empty list falls through to industry-affinity scoring instead. -/
theorem C6_sport_alignment_amended :
    ∀ (athlete_data : Athlete) (brand_data : Brand) (athlete_metrics : List Metric),
      ((athlete_data.sport ∈ brand_data.preferred_sports ∨
          brand_data.preferred_sports = []) →
        (AIMatchingService._calculate_compatibility_factors athlete_data brand_data
            athlete_metrics).sport_alignment = 100) ∧
      (pyLower athlete_data.sport ∈ brand_data.preferred_sports.map pyLower →
        CompatibilityModel._calculate_sport_alignment athlete_data brand_data = 100) := by
  intro a b m
  constructor
  · intro h
    have e : (AIMatchingService._calculate_compatibility_factors a b m).sport_alignment =
        if a.sport ∈ b.preferred_sports ∨ b.preferred_sports = [] then (100 : ℚ)
        else if b.preferred_sports.any (fun sport => pyIn sport (pyLower a.sport)) then 70
        else 20 := rfl
    rw [e, if_pos h]
  · intro h
    simp only [CompatibilityModel._calculate_sport_alignment]
    rw [if_pos h]

theorem C6_sport_alignment_amended_witness :
    (({ sport := ("tennis") } : Athlete).sport ∈
        ({ preferred_sports := [("tennis")] } : Brand).preferred_sports) ∧
    (AIMatchingService._calculate_compatibility_factors { sport := ("tennis") }
        { preferred_sports := [("tennis")] } []).sport_alignment = 100 ∧
    CompatibilityModel._calculate_sport_alignment { sport := ("tennis") }
      { preferred_sports := [("tennis")] } = 100 := by
  have h := C6_sport_alignment_amended { sport := ("tennis") }
    { preferred_sports := [("tennis")] } []
  exact ⟨by decide, h.1 (Or.inl (by decide)), h.2 (by decide)⟩

/-- C6 counterexample: an empty preferred-sports list does not force 100 in
`CompatibilityModel._calculate_sport_alignment` — for a golf athlete and a
brand with no industry it yields the 30 floor. -/
theorem C6_counterexample :
    ({ industry := "", preferred_sports := [] } : Brand).preferred_sports = [] ∧
    CompatibilityModel._calculate_sport_alignment { sport := ("golf") }
      { industry := "", preferred_sports := [] } = 30 ∧
    ((30 : ℚ) ≠ 100) :=
  ⟨rfl, by decide, by norm_num⟩

/-- C3: a candidate whose per-candidate processing raises (modelled by the
`Option`-valued oracle returning `none`) is excluded from bulk-matching
results, and the batch result is exactly that of the remaining candidates —
for both `find_athlete_matches` and `find_brand_matches`. -/
theorem C3_per_candidate_errors_skipped :
    (∀ (sim : Athlete → ℚ) (metricsOf : Athlete → Option (List Metric))
        (brand_data : Brand) (l1 l2 : List Athlete) (a : Athlete),
      metricsOf a = none →
      AIMatchingService.find_athlete_matches sim metricsOf brand_data (l1 ++ a :: l2) =
        AIMatchingService.find_athlete_matches sim metricsOf brand_data (l1 ++ l2)) ∧
    (∀ (simB : Brand → Option ℚ) (athlete_data : Athlete) (athlete_metrics : List Metric)
        (l1 l2 : List Brand) (b : Brand),
      simB b = none →
      AIMatchingService.find_brand_matches simB athlete_data athlete_metrics (l1 ++ b :: l2) =
        AIMatchingService.find_brand_matches simB athlete_data athlete_metrics (l1 ++ l2)) := by
  constructor
  · intro sim metricsOf brand_data l1 l2 a h
    unfold AIMatchingService.find_athlete_matches
    congr 1
    simp [List.filterMap_append, List.filterMap_cons, AIMatchingService.tryProcessAthlete, h]
  · intro simB athlete_data athlete_metrics l1 l2 b h
    unfold AIMatchingService.find_brand_matches
    congr 1
    simp [List.filterMap_append, List.filterMap_cons, AIMatchingService.tryProcessBrand, h]

theorem C3_per_candidate_errors_skipped_witness :
    ((fun _ : Athlete => (none : Option (List Metric))) ({} : Athlete) = none) ∧
    AIMatchingService.find_athlete_matches (fun _ => 1) (fun _ => none) {}
        ([] ++ ({} : Athlete) :: []) =
      AIMatchingService.find_athlete_matches (fun _ => 1) (fun _ => none) {} ([] ++ []) :=
  ⟨rfl, C3_per_candidate_errors_skipped.1 (fun _ => 1) (fun _ => none) {} [] []
    ({} : Athlete) rfl⟩

theorem tryProcessAthlete_some_score {sim : Athlete → ℚ}
    {metricsOf : Athlete → Option (List Metric)} {brand_data : Brand} {a : Athlete}
    {m : AIMatchingService.MatchEntry}
    (h : AIMatchingService.tryProcessAthlete sim metricsOf brand_data a = some m) :
    AIMatchingService.MATCHING_THRESHOLD * 100 ≤ m.overall_score := by
  unfold AIMatchingService.tryProcessAthlete at h
  cases hm : metricsOf a with
  | none => rw [hm] at h; exact absurd h (by simp)
  | some ms =>
    rw [hm] at h
    simp only at h
    split at h
    case isTrue hc =>
      obtain rfl := (Option.some.inj h).symm
      have ht : AIMatchingService.MATCHING_THRESHOLD * 100 = 70 := by
        norm_num [AIMatchingService.MATCHING_THRESHOLD]
      rw [ht] at hc ⊢
      exact le_pyRound_one hc
    case isFalse => exact absurd h (by simp)

theorem tryProcessBrand_some_score {simB : Brand → Option ℚ} {athlete_data : Athlete}
    {athlete_metrics : List Metric} {b : Brand}
    {m : AIMatchingService.BrandMatchEntry}
    (h : AIMatchingService.tryProcessBrand simB athlete_data athlete_metrics b = some m) :
    AIMatchingService.MATCHING_THRESHOLD * 100 ≤ m.overall_score := by
  unfold AIMatchingService.tryProcessBrand at h
  cases hm : simB b with
  | none => rw [hm] at h; exact absurd h (by simp)
  | some similarity =>
    rw [hm] at h
    simp only at h
    split at h
    case isTrue hc =>
      obtain rfl := (Option.some.inj h).symm
      have ht : AIMatchingService.MATCHING_THRESHOLD * 100 = 70 := by
        norm_num [AIMatchingService.MATCHING_THRESHOLD]
      rw [ht] at hc ⊢
      exact le_pyRound_one hc
    case isFalse => exact absurd h (by simp)

/-- C2: bulk matching output (both `find_athlete_matches` and
`find_brand_matches`) is sorted in descending order of `overall_score`, and
every returned entry scores at least the configured threshold
`MATCHING_THRESHOLD × 100`. -/
theorem C2_bulk_matches_sorted_above_threshold :
    ∀ (sim : Athlete → ℚ) (metricsOf : Athlete → Option (List Metric))
      (brand_data : Brand) (athletes_data : List Athlete)
      (simB : Brand → Option ℚ) (athlete_data : Athlete)
      (athlete_metrics : List Metric) (brands_data : List Brand),
      ((AIMatchingService.find_athlete_matches sim metricsOf brand_data
            athletes_data).Pairwise
          (fun x y => y.overall_score ≤ x.overall_score) ∧
        ∀ m ∈ AIMatchingService.find_athlete_matches sim metricsOf brand_data athletes_data,
          AIMatchingService.MATCHING_THRESHOLD * 100 ≤ m.overall_score) ∧
      ((AIMatchingService.find_brand_matches simB athlete_data athlete_metrics
            brands_data).Pairwise
          (fun x y => y.overall_score ≤ x.overall_score) ∧
        ∀ m ∈ AIMatchingService.find_brand_matches simB athlete_data athlete_metrics
            brands_data,
          AIMatchingService.MATCHING_THRESHOLD * 100 ≤ m.overall_score) := by
  intro sim metricsOf brand_data athletes_data simB athlete_data athlete_metrics brands_data
  refine ⟨⟨?_, ?_⟩, ?_, ?_⟩
  · simp only [AIMatchingService.find_athlete_matches]
    exact pairwise_sort_desc (fun e : AIMatchingService.MatchEntry => e.overall_score) _
  · intro m hm
    simp only [AIMatchingService.find_athlete_matches, List.mem_mergeSort] at hm
    obtain ⟨a, _, hsome⟩ := List.mem_filterMap.mp hm
    exact tryProcessAthlete_some_score hsome
  · simp only [AIMatchingService.find_brand_matches]
    exact pairwise_sort_desc (fun e : AIMatchingService.BrandMatchEntry => e.overall_score) _
  · intro m hm
    simp only [AIMatchingService.find_brand_matches, List.mem_mergeSort] at hm
    obtain ⟨b, _, hsome⟩ := List.mem_filterMap.mp hm
    exact tryProcessBrand_some_score hsome

theorem amFactors_empty_eval :
    AIMatchingService._calculate_compatibility_factors {} {} [] =
      { sport_alignment := 100
        location_proximity := 100
        audience_demographics := 70
        budget_fit := 70
        engagement_quality := 0
        brand_safety := 90 } := by
  norm_num +decide [AIMatchingService._calculate_compatibility_factors,
    AIMatchingService._calculate_audience_demographics_score,
    AIMatchingService._calculate_brand_safety_score,
    AIMatchingService.brand_safety_running_score,
    AIMatchingService.red_flags_found, AIMatchingService.moderate_risks_found,
    AIMatchingService.red_flag_keywords, AIMatchingService.moderate_risk_keywords,
    AIMatchingService._estimate_athlete_rate, pyIn, pyLower, subHit, headMatch,
    pySplitWs, splitOnPred, npMean]

theorem c2ExampleEntry_mem :
    (⟨"", 74.4, 0, 0⟩ : AIMatchingService.MatchEntry) ∈
      AIMatchingService.find_athlete_matches (fun _ => 1) (fun _ => some []) {}
        [({} : Athlete)] := by
  have hf : AIMatchingService.tryProcessAthlete (fun _ => 1) (fun _ => some []) {}
      ({} : Athlete) = some (⟨"", 74.4, 0, 0⟩ : AIMatchingService.MatchEntry) := by
    simp only [AIMatchingService.tryProcessAthlete, amFactors_empty_eval]
    norm_num [amOverall_unfold, amFactors_empty_eval, AIMatchingService.MATCHING_THRESHOLD,
      AIMatchingService._estimate_athlete_rate, pyRound, round_eq]
  simp only [AIMatchingService.find_athlete_matches, List.mem_mergeSort,
    List.filterMap_cons, hf, List.filterMap_nil]
  exact List.mem_singleton_self _

theorem C2_bulk_matches_sorted_above_threshold_witness :
    ((⟨"", 74.4, 0, 0⟩ : AIMatchingService.MatchEntry) ∈
      AIMatchingService.find_athlete_matches (fun _ => 1) (fun _ => some []) {}
        [({} : Athlete)]) ∧
    AIMatchingService.MATCHING_THRESHOLD * 100 ≤
      (⟨"", 74.4, 0, 0⟩ : AIMatchingService.MatchEntry).overall_score :=
  ⟨c2ExampleEntry_mem,
    (C2_bulk_matches_sorted_above_threshold (fun _ => 1) (fun _ => some []) {}
        [({} : Athlete)] (fun _ => none) {} [] []).1.2 _ c2ExampleEntry_mem⟩

/-- C7 (amended): location proximity in `CompatibilityModel` is 50 when
either normalized location is empty; 100 on exact equality; 80 when both
locations have at least two comma-separated segments with equal stripped
last ("state") segments; 60 when some comma-separated segment of the
athlete location occurs stripped as a substring of the brand location (not
"any shared word"); else 30.  The `AIMatchingService` variant has only the
tiers 100 (equal, including both empty), 60 (some whitespace-separated word
of the athlete location is a substring of the brand location), else 30. -/
theorem C7_location_proximity_amended :
    ∀ (athlete_data : Athlete) (brand_data : Brand) (athlete_metrics : List Metric),
      ((pyLower athlete_data.location = "" ∨ pyLower brand_data.location = "") →
        CompatibilityModel._calculate_location_proximity athlete_data brand_data = 50) ∧
      (pyLower athlete_data.location ≠ "" → pyLower brand_data.location ≠ "" →
        pyLower athlete_data.location = pyLower brand_data.location →
        CompatibilityModel._calculate_location_proximity athlete_data brand_data = 100) ∧
      (pyLower athlete_data.location ≠ "" → pyLower brand_data.location ≠ "" →
        pyLower athlete_data.location ≠ pyLower brand_data.location →
        (2 ≤ (pySplitComma (pyLower athlete_data.location)).length ∧
          2 ≤ (pySplitComma (pyLower brand_data.location)).length ∧
          pyStrip ((pySplitComma (pyLower athlete_data.location)).getLastD "") =
            pyStrip ((pySplitComma (pyLower brand_data.location)).getLastD "")) →
        CompatibilityModel._calculate_location_proximity athlete_data brand_data = 80) ∧
      (pyLower athlete_data.location ≠ "" → pyLower brand_data.location ≠ "" →
        pyLower athlete_data.location ≠ pyLower brand_data.location →
        ¬ (2 ≤ (pySplitComma (pyLower athlete_data.location)).length ∧
          2 ≤ (pySplitComma (pyLower brand_data.location)).length ∧
          pyStrip ((pySplitComma (pyLower athlete_data.location)).getLastD "") =
            pyStrip ((pySplitComma (pyLower brand_data.location)).getLastD "")) →
        (∃ part ∈ pySplitComma (pyLower athlete_data.location),
          pyIn (pyStrip part) (pyLower brand_data.location) = true) →
        CompatibilityModel._calculate_location_proximity athlete_data brand_data = 60) ∧
      (pyLower athlete_data.location ≠ "" → pyLower brand_data.location ≠ "" →
        pyLower athlete_data.location ≠ pyLower brand_data.location →
        ¬ (2 ≤ (pySplitComma (pyLower athlete_data.location)).length ∧
          2 ≤ (pySplitComma (pyLower brand_data.location)).length ∧
          pyStrip ((pySplitComma (pyLower athlete_data.location)).getLastD "") =
            pyStrip ((pySplitComma (pyLower brand_data.location)).getLastD "")) →
        ¬ (∃ part ∈ pySplitComma (pyLower athlete_data.location),
          pyIn (pyStrip part) (pyLower brand_data.location) = true) →
        CompatibilityModel._calculate_location_proximity athlete_data brand_data = 30) ∧
      (pyLower athlete_data.location = pyLower brand_data.location →
        (AIMatchingService._calculate_compatibility_factors athlete_data brand_data
            athlete_metrics).location_proximity = 100) ∧
      (pyLower athlete_data.location ≠ pyLower brand_data.location →
        (∃ word ∈ pySplitWs (pyLower athlete_data.location),
          pyIn word (pyLower brand_data.location) = true) →
        (AIMatchingService._calculate_compatibility_factors athlete_data brand_data
            athlete_metrics).location_proximity = 60) ∧
      (pyLower athlete_data.location ≠ pyLower brand_data.location →
        ¬ (∃ word ∈ pySplitWs (pyLower athlete_data.location),
          pyIn word (pyLower brand_data.location) = true) →
        (AIMatchingService._calculate_compatibility_factors athlete_data brand_data
            athlete_metrics).location_proximity = 30) := by
  intro a b m
  have eAM : (AIMatchingService._calculate_compatibility_factors a b m).location_proximity =
      if pyLower a.location = pyLower b.location then (100 : ℚ)
      else if (pySplitWs (pyLower a.location)).any
          (fun word => pyIn word (pyLower b.location)) then 60
      else 30 := rfl
  refine ⟨?_, ?_, ?_, ?_, ?_, ?_, ?_, ?_⟩
  · intro h
    simp only [CompatibilityModel._calculate_location_proximity]
    rw [if_pos h]
  · intro h1 h2 h3
    simp only [CompatibilityModel._calculate_location_proximity]
    rw [if_neg (not_or.mpr ⟨h1, h2⟩), if_pos h3]
  · intro h1 h2 h3 hst
    simp only [CompatibilityModel._calculate_location_proximity]
    rw [if_neg (not_or.mpr ⟨h1, h2⟩), if_neg h3, if_pos hst]
  · intro h1 h2 h3 hst hword
    simp only [CompatibilityModel._calculate_location_proximity]
    rw [if_neg (not_or.mpr ⟨h1, h2⟩), if_neg h3, if_neg hst,
      if_pos (List.any_eq_true.mpr (by
        obtain ⟨part, hp, hin⟩ := hword
        exact ⟨part, hp, hin⟩))]
  · intro h1 h2 h3 hst hword
    simp only [CompatibilityModel._calculate_location_proximity]
    rw [if_neg (not_or.mpr ⟨h1, h2⟩), if_neg h3, if_neg hst,
      if_neg (fun hc => hword (by
        obtain ⟨part, hp, hin⟩ := List.any_eq_true.mp hc
        exact ⟨part, hp, hin⟩))]
  · intro h
    rw [eAM, if_pos h]
  · intro h hword
    rw [eAM, if_neg h,
      if_pos (List.any_eq_true.mpr (by
        obtain ⟨w, hw, hin⟩ := hword
        exact ⟨w, hw, hin⟩))]
  · intro h hword
    rw [eAM, if_neg h,
      if_neg (fun hc => hword (by
        obtain ⟨w, hw, hin⟩ := List.any_eq_true.mp hc
        exact ⟨w, hw, hin⟩))]

theorem C7_location_proximity_amended_witness :
    (pyLower (({ location := ("Austin, TX") } : Athlete)).location ≠ "" ∧
      pyLower (({ location := ("Houston, TX") } : Brand)).location ≠ "" ∧
      pyLower (({ location := ("Austin, TX") } : Athlete)).location ≠
        pyLower (({ location := ("Houston, TX") } : Brand)).location) ∧
    CompatibilityModel._calculate_location_proximity { location := ("Austin, TX") }
      { location := ("Houston, TX") } = 80 :=
  ⟨⟨by decide, by decide, by decide⟩,
    (C7_location_proximity_amended { location := ("Austin, TX") }
        { location := ("Houston, TX") } []).2.2.1
      (by decide) (by decide) (by decide) ⟨by decide, by decide, by decide⟩⟩

/-- C7 counterexample: "new york" and "york city" share the word "york"
(so the claim demands 60), yet `CompatibilityModel` scores the pair 30 —
its 60-tier tests comma-separated segments, not words. -/
theorem C7_counterexample :
    (("york" : String) ∈ pySplitWs (pyLower (("new york" : String)))) ∧
    pyIn ("york") (pyLower (("york city" : String))) = true ∧
    pyLower (("new york" : String)) ≠ pyLower (("york city" : String)) ∧
    pyStrip ((pySplitComma (pyLower (("new york" : String)))).getLastD "") ≠
      pyStrip ((pySplitComma (pyLower (("york city" : String)))).getLastD "") ∧
    CompatibilityModel._calculate_location_proximity { location := ("new york") }
      { location := ("york city") } = 30 ∧
    ((30 : ℚ) ≠ 60) :=
  ⟨by decide, by decide, by decide, by decide, by decide, by norm_num⟩

theorem am_running_score_bio_shift (a : Athlete) (bio1 bio2 : String)
    (metrics : List Metric)
    (hred : AIMatchingService.red_flags_found (pyLower bio2) =
      AIMatchingService.red_flags_found (pyLower bio1) + 1)
    (hmod : AIMatchingService.moderate_risks_found (pyLower bio2) =
      AIMatchingService.moderate_risks_found (pyLower bio1))
    (hbe : (bio1 = "") ↔ (bio2 = "")) :
    AIMatchingService.brand_safety_running_score { a with bio := bio2 } metrics =
      AIMatchingService.brand_safety_running_score { a with bio := bio1 } metrics - 25 := by
  have hflt : ([a.first_name, a.last_name, a.sport, a.school, bio2].filter
      (fun f => f ≠ "")).length =
      ([a.first_name, a.last_name, a.sport, a.school, bio1].filter
      (fun f => f ≠ "")).length := by
    have hd : (decide (bio2 ≠ "")) = (decide (bio1 ≠ "")) :=
      decide_eq_decide.mpr (not_congr hbe.symm)
    simp only [List.filter_cons, List.filter_nil, hd,
      apply_ite (@List.length String), List.length_cons, List.length_nil]
  simp only [AIMatchingService.brand_safety_running_score]
  rw [hred, hmod, hflt]
  push_cast
  split_ifs <;> ring

/-- C9 (amended): brand safety is always clamped to `[20, 100]` (never
zero); and adding exactly one red-flag keyword such as "arrest" to the bio —
leaving the moderate-risk count and bio-presence unchanged — lowers the
score by exactly the 25-point penalty whenever neither clamp binds (the
arrest-side running score is still ≥ 20 and the clean-side running score is
≤ 100; without those side conditions the clamps can shrink the drop). -/
theorem C9_brand_safety_amended :
    (∀ (athlete_data : Athlete) (athlete_metrics : List Metric),
      20 ≤ AIMatchingService._calculate_brand_safety_score athlete_data athlete_metrics ∧
      AIMatchingService._calculate_brand_safety_score athlete_data athlete_metrics ≤ 100) ∧
    (∀ (a : Athlete) (bio1 bio2 : String) (metrics : List Metric),
      AIMatchingService.red_flags_found (pyLower bio2) =
        AIMatchingService.red_flags_found (pyLower bio1) + 1 →
      AIMatchingService.moderate_risks_found (pyLower bio2) =
        AIMatchingService.moderate_risks_found (pyLower bio1) →
      ((bio1 = "") ↔ (bio2 = "")) →
      20 ≤ AIMatchingService.brand_safety_running_score { a with bio := bio2 } metrics →
      AIMatchingService.brand_safety_running_score { a with bio := bio1 } metrics ≤ 100 →
      AIMatchingService._calculate_brand_safety_score { a with bio := bio1 } metrics -
        AIMatchingService._calculate_brand_safety_score { a with bio := bio2 } metrics
        = 25) := by
  constructor
  · intro athlete_data athlete_metrics
    unfold AIMatchingService._calculate_brand_safety_score
    exact ⟨le_min (by norm_num) (le_max_left _ _), min_le_left _ _⟩
  · intro a bio1 bio2 metrics hred hmod hbe hlo hhi
    have hshift := am_running_score_bio_shift a bio1 bio2 metrics hred hmod hbe
    unfold AIMatchingService._calculate_brand_safety_score
    rw [hshift] at hlo ⊢
    set r1 := AIMatchingService.brand_safety_running_score { a with bio := bio1 } metrics
      with hr1
    have e1 : min 100 (max 20 r1) = r1 := by
      rw [max_eq_right (by linarith), min_eq_right (by linarith)]
    have e2 : min 100 (max 20 (r1 - 25)) = r1 - 25 := by
      rw [max_eq_right (by linarith), min_eq_right (by linarith)]
    rw [e1, e2]
    ring

theorem C9_brand_safety_amended_witness :
    (AIMatchingService.red_flags_found (pyLower (("x arrest" : String))) =
      AIMatchingService.red_flags_found (pyLower (("x" : String))) + 1) ∧
    AIMatchingService._calculate_brand_safety_score
        { ({ sport := ("c"), school := ("d") } : Athlete) with bio := ("x") } [] -
      AIMatchingService._calculate_brand_safety_score
        { ({ sport := ("c"), school := ("d") } : Athlete) with bio := ("x arrest") } []
      = 25 :=
  ⟨by decide,
    C9_brand_safety_amended.2 { sport := ("c"), school := ("d") } ("x") ("x arrest") []
      (by decide) (by decide) (by decide)
      (by norm_num +decide [AIMatchingService.brand_safety_running_score,
        AIMatchingService.red_flags_found, AIMatchingService.moderate_risks_found,
        AIMatchingService.red_flag_keywords, AIMatchingService.moderate_risk_keywords,
        pyIn, pyLower, subHit, headMatch])
      (by norm_num +decide [AIMatchingService.brand_safety_running_score,
        AIMatchingService.red_flags_found, AIMatchingService.moderate_risks_found,
        AIMatchingService.red_flag_keywords, AIMatchingService.moderate_risk_keywords,
        pyIn, pyLower, subHit, headMatch])⟩

/-- C9 counterexample: for a complete verified profile the clean bio's
running score exceeds 100 and is clamped, so adding "arrest" drops the
returned score by only 15, not by the fixed 25-point red-flag penalty. -/
theorem C9_counterexample :
    pyIn ("arrest") (pyLower arrestAthlete.bio) = true ∧
    AIMatchingService.red_flags_found (pyLower arrestAthlete.bio) =
      AIMatchingService.red_flags_found (pyLower cleanAthlete.bio) + 1 ∧
    AIMatchingService._calculate_brand_safety_score cleanAthlete [] = 100 ∧
    AIMatchingService._calculate_brand_safety_score arrestAthlete [] = 85 ∧
    ((100 : ℚ) - 85 ≠ 25) := by
  refine ⟨by decide, by decide, ?_, ?_, by norm_num⟩ <;>
    norm_num +decide [AIMatchingService._calculate_brand_safety_score,
      AIMatchingService.brand_safety_running_score,
      AIMatchingService.red_flags_found, AIMatchingService.moderate_risks_found,
      AIMatchingService.red_flag_keywords, AIMatchingService.moderate_risk_keywords,
      cleanAthlete, arrestAthlete, pyIn, pyLower, subHit, headMatch]

theorem affinity_values_bounds :
    ∀ p ∈ CompatibilityModel.industry_sport_affinity, ∀ q ∈ p.2,
      (0 : ℚ) ≤ q.2 ∧ q.2 ≤ 100 := by decide

theorem cm_sport_inRange (a : Athlete) (b : Brand) :
    inRange (CompatibilityModel._calculate_sport_alignment a b) := by
  simp only [CompatibilityModel._calculate_sport_alignment, inRange]
  split
  · norm_num
  · split
    next entry hf =>
      have hmem := List.mem_of_find?_eq_some hf
      unfold lookupD
      cases hf2 : entry.2.find? (fun p => p.1 == pyLower a.sport) with
      | none => simp; norm_num
      | some q =>
        have hq : q ∈ entry.2 := List.mem_of_find?_eq_some hf2
        simpa using affinity_values_bounds entry hmem q hq
    next =>
      split
      · split <;> norm_num
      · norm_num

theorem am_audience_inRange (a : Athlete) (b : Brand) (m : List Metric) :
    inRange (AIMatchingService._calculate_audience_demographics_score a b m) := by
  unfold AIMatchingService._calculate_audience_demographics_score inRange
  cases b.target_demographics with
  | none => norm_num
  | some td =>
    exact ⟨le_min (by norm_num) (le_max_left _ _), min_le_left _ _⟩

theorem cm_audience_inRange (m : List Metric) (b : Brand)
    (hm : ∀ x ∈ m, validDist x.audience_demographics.age_groups ∧
      validDist x.audience_demographics.gender_dist)
    (hb : ∀ td, b.target_demographics = some td →
      validDist td.age_groups ∧ validDist td.gender_dist) :
    inRange (CompatibilityModel._calculate_audience_match m b) := by
  unfold CompatibilityModel._calculate_audience_match
  split
  · exact ⟨by norm_num, by norm_num⟩
  next hne =>
    split
    next htd => exact ⟨by norm_num, by norm_num⟩
    next td htd =>
      obtain ⟨hbA, hbG⟩ := hb td htd
      have hall : ∀ x ∈ (m.map (fun metric =>
          (if metric.audience_demographics.age_groups ≠ [] ∧ td.age_groups ≠ [] then
            [CompatibilityModel.demoOverlap metric.audience_demographics.age_groups
              td.age_groups] else []) ++
          (if metric.audience_demographics.gender_dist ≠ [] ∧ td.gender_dist ≠ [] then
            [CompatibilityModel.demoOverlap metric.audience_demographics.gender_dist
              td.gender_dist] else []))).flatten,
          0 ≤ x ∧ x ≤ 100 := by
        intro x hx
        obtain ⟨l, hl, hxl⟩ := List.mem_flatten.mp hx
        obtain ⟨mt, hmt, rfl⟩ := List.mem_map.mp hl
        obtain ⟨hA, hG⟩ := hm mt hmt
        rcases List.mem_append.mp hxl with h | h
        · split at h
          · rw [List.mem_singleton.mp h]
            exact ⟨demoOverlap_nonneg hA.1 hbA.1, demoOverlap_le hA.2⟩
          · exact absurd h (List.not_mem_nil x)
        · split at h
          · rw [List.mem_singleton.mp h]
            exact ⟨demoOverlap_nonneg hG.1 hbG.1, demoOverlap_le hG.2⟩
          · exact absurd h (List.not_mem_nil x)
      have key : ∀ (L : List ℚ), (∀ x ∈ L, 0 ≤ x ∧ x ≤ 100) →
          0 ≤ (if L ≠ [] then npMean L else (60 : ℚ)) ∧
          (if L ≠ [] then npMean L else (60 : ℚ)) ≤ 100 := by
        intro L hL
        split
        next hLne =>
          exact ⟨le_npMean hLne (fun x hx => (hL x hx).1),
            npMean_le hLne (fun x hx => (hL x hx).2)⟩
        next => exact ⟨by norm_num, by norm_num⟩
      exact key _ hall

/-- C1 (amended): every compatibility factor of both implementations lies in
`[0, 100]` for every input — with one exception forced by the code:
`CompatibilityModel`'s audience match can exceed 100 when the audience
percentage dicts are out of range, so for it (and only it) the inputs'
percentage distributions are assumed valid (non-negative, summing to ≤ 100).
Each function is total — missing fields take the `dict.get` defaults rather
than raising. -/
theorem C1_factor_ranges_amended :
    ∀ (athlete_data : Athlete) (brand_data : Brand) (athlete_metrics : List Metric),
      (∀ x ∈ athlete_metrics, validDist x.audience_demographics.age_groups ∧
        validDist x.audience_demographics.gender_dist) →
      (∀ td, brand_data.target_demographics = some td →
        validDist td.age_groups ∧ validDist td.gender_dist) →
      (inRange (AIMatchingService._calculate_compatibility_factors athlete_data brand_data
          athlete_metrics).sport_alignment ∧
        inRange (AIMatchingService._calculate_compatibility_factors athlete_data brand_data
          athlete_metrics).location_proximity ∧
        inRange (AIMatchingService._calculate_compatibility_factors athlete_data brand_data
          athlete_metrics).audience_demographics ∧
        inRange (AIMatchingService._calculate_compatibility_factors athlete_data brand_data
          athlete_metrics).budget_fit ∧
        inRange (AIMatchingService._calculate_compatibility_factors athlete_data brand_data
          athlete_metrics).engagement_quality ∧
        inRange (AIMatchingService._calculate_compatibility_factors athlete_data brand_data
          athlete_metrics).brand_safety) ∧
      (inRange (CompatibilityModel.calculate_compatibility_factors athlete_data brand_data
          athlete_metrics).sport_alignment ∧
        inRange (CompatibilityModel.calculate_compatibility_factors athlete_data brand_data
          athlete_metrics).audience_match ∧
        inRange (CompatibilityModel.calculate_compatibility_factors athlete_data brand_data
          athlete_metrics).engagement_quality ∧
        inRange (CompatibilityModel.calculate_compatibility_factors athlete_data brand_data
          athlete_metrics).budget_compatibility ∧
        inRange (CompatibilityModel.calculate_compatibility_factors athlete_data brand_data
          athlete_metrics).location_proximity ∧
        inRange (CompatibilityModel.calculate_compatibility_factors athlete_data brand_data
          athlete_metrics).brand_safety) := by
  intro a b m hm hb
  refine ⟨⟨?_, ?_, ?_, ?_, ?_, ?_⟩, ⟨?_, ?_, ?_, ?_, ?_, ?_⟩⟩
  · rw [show (AIMatchingService._calculate_compatibility_factors a b m).sport_alignment =
        (if a.sport ∈ b.preferred_sports ∨ b.preferred_sports = [] then (100 : ℚ)
         else if b.preferred_sports.any (fun sport => pyIn sport (pyLower a.sport)) then 70
         else 20) from rfl]
    unfold inRange
    split_ifs <;> norm_num
  · rw [show (AIMatchingService._calculate_compatibility_factors a b m).location_proximity =
        (if pyLower a.location = pyLower b.location then (100 : ℚ)
         else if (pySplitWs (pyLower a.location)).any
            (fun word => pyIn word (pyLower b.location)) then 60
         else 30) from rfl]
    unfold inRange
    split_ifs <;> norm_num
  · exact am_audience_inRange a b m
  · rw [show (AIMatchingService._calculate_compatibility_factors a b m).budget_fit =
        (let engagement_quality : ℚ :=
          if m ≠ [] then
            if npMean (m.map (fun x => x.engagement_rate)) ≥ 8 then 100
            else if npMean (m.map (fun x => x.engagement_rate)) ≥ 5 then 80
            else if npMean (m.map (fun x => x.engagement_rate)) ≥ 2 then 60
            else 30
          else 0
         let estimated_rate := AIMatchingService._estimate_athlete_rate
           ((m.map (fun x => x.followers)).sum) engagement_quality
         if b.budget_max > 0 then
          if estimated_rate ≤ b.budget_max * 0.8 then (100 : ℚ)
          else if estimated_rate ≤ b.budget_max then 80
          else if estimated_rate ≤ b.budget_max * 1.2 then 50
          else 20
         else 70) from rfl]
    unfold inRange
    split_ifs
    all_goals dsimp only
    all_goals first | (split_ifs <;> norm_num) | norm_num
  · rw [show (AIMatchingService._calculate_compatibility_factors a b m).engagement_quality =
        (if m ≠ [] then
          if npMean (m.map (fun x => x.engagement_rate)) ≥ 8 then (100 : ℚ)
          else if npMean (m.map (fun x => x.engagement_rate)) ≥ 5 then 80
          else if npMean (m.map (fun x => x.engagement_rate)) ≥ 2 then 60
          else 30
         else 0) from rfl]
    unfold inRange
    split_ifs <;> norm_num
  · show inRange (AIMatchingService._calculate_brand_safety_score a m)
    unfold AIMatchingService._calculate_brand_safety_score inRange
    constructor
    · exact le_min (by norm_num) (le_trans (by norm_num) (le_max_left _ _))
    · exact min_le_left _ _
  · exact cm_sport_inRange a b
  · exact cm_audience_inRange m b hm hb
  · show inRange (CompatibilityModel._calculate_engagement_quality m)
    simp only [CompatibilityModel._calculate_engagement_quality, inRange]
    split_ifs <;> norm_num
  · show inRange (CompatibilityModel._calculate_budget_compatibility m b)
    simp only [CompatibilityModel._calculate_budget_compatibility, inRange]
    split_ifs <;> norm_num
  · show inRange (CompatibilityModel._calculate_location_proximity a b)
    simp only [CompatibilityModel._calculate_location_proximity, inRange]
    split_ifs <;> norm_num
  · show inRange (CompatibilityModel._calculate_brand_safety a m)
    unfold CompatibilityModel._calculate_brand_safety inRange
    constructor
    · exact le_trans (by norm_num) (le_max_left _ _)
    · exact max_le (by norm_num) (min_le_left _ _)

theorem C1_factor_ranges_amended_witness :
    (inRange (AIMatchingService._calculate_compatibility_factors {} {} []).sport_alignment ∧
      inRange (AIMatchingService._calculate_compatibility_factors {} {} []).location_proximity ∧
      inRange (AIMatchingService._calculate_compatibility_factors {} {} []).audience_demographics ∧
      inRange (AIMatchingService._calculate_compatibility_factors {} {} []).budget_fit ∧
      inRange (AIMatchingService._calculate_compatibility_factors {} {} []).engagement_quality ∧
      inRange (AIMatchingService._calculate_compatibility_factors {} {} []).brand_safety) ∧
    (inRange (CompatibilityModel.calculate_compatibility_factors {} {} []).sport_alignment ∧
      inRange (CompatibilityModel.calculate_compatibility_factors {} {} []).audience_match ∧
      inRange (CompatibilityModel.calculate_compatibility_factors {} {} []).engagement_quality ∧
      inRange (CompatibilityModel.calculate_compatibility_factors {} {} []).budget_compatibility ∧
      inRange (CompatibilityModel.calculate_compatibility_factors {} {} []).location_proximity ∧
      inRange (CompatibilityModel.calculate_compatibility_factors {} {} []).brand_safety) :=
  C1_factor_ranges_amended {} {} []
    (fun x hx => absurd hx (List.not_mem_nil x))
    (fun td h => nomatch h)

/-- C1 counterexample: a metrics record and brand targeting with an
age-group "percentage" of 150 drive `CompatibilityModel`'s audience match to
150, outside `[0, 100]` — no validation or clamp exists on this path. -/
theorem C1_counterexample :
    CompatibilityModel._calculate_audience_match [overflowMetric] overflowBrand = 150 ∧
    ¬ (CompatibilityModel._calculate_audience_match [overflowMetric] overflowBrand ≤ 100) := by
  have h : CompatibilityModel._calculate_audience_match [overflowMetric] overflowBrand
      = 150 := by
    norm_num +decide [CompatibilityModel._calculate_audience_match,
      CompatibilityModel.demoOverlap, lookupD, npMean, overflowMetric, overflowBrand,
      List.find?]
  exact ⟨h, by rw [h]; norm_num⟩
